import Mathlib

set_option maxRecDepth 100000

/-!
Shallow embedding of the conversation-and-tool-call orchestration loop of the
text2sql repository: the `Chat` class of `src/client/client.py` (message store,
content adapter, token-mode command parser, tool executor, `process_query`
cycle), the `InMemoryChatSession` adapter of `src/client/session.py`, the
message processors of `src/client/processors.py`, the `MCPToolExecutor` of
`src/client/tool_executor.py`, the role-mapping loop of `src/client/chat.py`,
and the Clear History reset of `src/app.py`.

External effects are modelled explicitly: the Gemini `generate_content` calls
and the remote MCP `call_tool` calls are drawn from an `Oracle` (one outcome
per call index), `Except.error` standing for a raised exception.  All text is
`String`; the Python string primitives used by the source (`find`, slicing,
`strip`, `upper`, substring test) are embedded over `List Char`.
-/

namespace Text2Sql

/-! ## Python string primitives -/

/-- Whitespace characters removed by Python `str.strip()`. -/
def pyIsSpace (c : Char) : Bool :=
  c = ' ' || c = '\t' || c = '\n' || c = '\r' || c = '\x0b' || c = '\x0c'

/-- Index of the first occurrence of `pat` in a character list, if any. -/
def findSubAux (pat : List Char) : List Char → Option Nat
  | [] => if pat.isEmpty then some 0 else none
  | c :: rest =>
    if pat.isPrefixOf (c :: rest) then some 0
    else (findSubAux pat rest).map (· + 1)

/-- Python `s.find(pat, start)`: first index of `pat` at or after `start`, else `-1`. -/
def pyFindFrom (s pat : String) (start : Nat) : Int :=
  match findSubAux pat.data (s.data.drop start) with
  | some i => ((i + start : Nat) : Int)
  | none => -1

/-- Python `s.find(pat)`. -/
def pyFind (s pat : String) : Int := pyFindFrom s pat 0

/-- Python `pat in s` (substring containment). -/
def containsSubstr (s pat : String) : Bool := (findSubAux pat.data s.data).isSome

/-- Python slice `s[a:b]` for non-negative bounds. -/
def pySlice (s : String) (a b : Nat) : String := ⟨(s.data.drop a).take (b - a)⟩

/-- Python `s.strip()`. -/
def pyStrip (s : String) : String :=
  ⟨((s.data.dropWhile pyIsSpace).reverse.dropWhile pyIsSpace).reverse⟩

/-- Python `s.upper()` (ASCII range, which covers every command token). -/
def upperString (s : String) : String := ⟨s.data.map Char.toUpper⟩

/-- Python `s.lower()` (ASCII range). -/
def lowerString (s : String) : String := ⟨s.data.map Char.toLower⟩

/-! ## Data model (src/client/types.py) -/

/-- `MessageRole` from src/client/types.py.  The extra `other` constructor
stands for any value outside the four enum members, which Python's dynamic
typing admits wherever a role is dispatched on by equality. -/
inductive MessageRole
  | system
  | user
  | assistant
  | tool
  | other (value : String)
  deriving DecidableEq, Repr

/-- `Message` from src/client/types.py. -/
structure Message where
  role : MessageRole
  content : String
  deriving DecidableEq, Repr

/-- Gemini wire-format content: `google.genai.types.Content`, each part being
the text carried by `Part.from_text`. -/
structure Content where
  role : String
  parts : List String
  deriving DecidableEq, Repr

/-! ## Content adapters -/

/-- A text renderer standing for `Part.from_text`; `Except.error` models the
possibility that building a part raises. -/
def fromTextOk : String → Except String String := fun t => Except.ok t

/-- Body of the `for` loop of `Chat._convert_messages_to_content`
(src/client/client.py, lines 50-86): each recognized role appends one wire
content; a message whose role matches no branch appends nothing; a raised
exception aborts the loop. -/
def convertMessagesToContentGo (fromText : String → Except String String) :
    List Message → Except String (List Content)
  | [] => Except.ok []
  | msg :: rest =>
    match msg.role with
    | MessageRole.system => do
      let t ← fromText ("[SYSTEM] " ++ msg.content)
      let cs ← convertMessagesToContentGo fromText rest
      Except.ok (⟨"user", [t]⟩ :: cs)
    | MessageRole.user => do
      let t ← fromText msg.content
      let cs ← convertMessagesToContentGo fromText rest
      Except.ok (⟨"user", [t]⟩ :: cs)
    | MessageRole.assistant => do
      let t ← fromText msg.content
      let cs ← convertMessagesToContentGo fromText rest
      Except.ok (⟨"model", [t]⟩ :: cs)
    | MessageRole.tool => do
      let t ← fromText msg.content
      let cs ← convertMessagesToContentGo fromText rest
      Except.ok (⟨"model", [t]⟩ :: cs)
    | MessageRole.other _ => convertMessagesToContentGo fromText rest

/-- `Chat._convert_messages_to_content` from src/client/client.py: the loop
above wrapped in `try/except`, the except branch returning the empty list. -/
def convertMessagesToContent (fromText : String → Except String String)
    (msgs : List Message) : List Content :=
  match convertMessagesToContentGo fromText msgs with
  | Except.ok cs => cs
  | Except.error _ => []

/-- Body of the list comprehension of
`InMemoryChatSession.convert_to_gemini_content` (src/client/session.py,
lines 43-63): System and User map to wire role `"user"`, every other role to
`"model"`; System content is prefixed with `"[SYSTEM] "`. -/
def convertToGeminiContentGo (fromText : String → Except String String) :
    List Message → Except String (List Content)
  | [] => Except.ok []
  | msg :: rest => do
    let t ← fromText
      ((if msg.role = MessageRole.system then "[SYSTEM] " else "") ++ msg.content)
    let cs ← convertToGeminiContentGo fromText rest
    Except.ok
      (⟨if msg.role = MessageRole.system ∨ msg.role = MessageRole.user then "user"
        else "model", [t]⟩ :: cs)

/-- `InMemoryChatSession.convert_to_gemini_content` from src/client/session.py:
the comprehension wrapped in `try/except`, the except branch returning `[]`. -/
def convertToGeminiContent (fromText : String → Except String String)
    (msgs : List Message) : List Content :=
  match convertToGeminiContentGo fromText msgs with
  | Except.ok cs => cs
  | Except.error _ => []

/-- Message dictionaries of src/client/chat.py: `{"author": ..., "content": ...}`. -/
structure DictMessage where
  author : String
  content : String
  deriving DecidableEq, Repr

/-- The role-mapping loop inside `Chat.process_query` of src/client/chat.py
(lines 150-182): `"system"` and `"user"` map to wire role `"user"`,
`"assistant"` to `"model"`, and any other author string falls to the final
`else`, which maps it to `"user"`. -/
def chatPyContentList (msgs : List DictMessage) : List Content :=
  msgs.map fun msg =>
    if msg.author = "system" then ⟨"user", [msg.content]⟩
    else if msg.author = "user" then ⟨"user", [msg.content]⟩
    else if msg.author = "assistant" then ⟨"model", [msg.content]⟩
    else ⟨"user", [msg.content]⟩

/-! ## Tool execution -/

/-- One element of `result.content` of an MCP `call_tool` result: either an
object carrying a `text` attribute or one without it. -/
inductive ContentItem
  | withText (text : String)
  | noText
  deriving DecidableEq, Repr

/-- The MCP `CallToolResult`: its `content` list. -/
structure CallToolResult where
  content : List ContentItem
  deriving DecidableEq, Repr

/-- `MCPToolExecutor.execute_tool` from src/client/tool_executor.py as a
function of the remote call outcome (`Except.error e` models
`session.call_tool` raising `e`).  The function is total: every outcome is
normalized to a result string, so the executor never raises to its caller. -/
def executeToolOutcome (toolName : String) (outcome : Except String CallToolResult) :
    String :=
  match outcome with
  | Except.error e => "Error executing tool " ++ toolName ++ ": " ++ e
  | Except.ok result =>
    match result.content with
    | [] => "Tool executed successfully (no output)"
    | item :: _ =>
      match item with
      | ContentItem.withText t => t
      | ContentItem.noText =>
        "Tool " ++ toolName ++ " executed but returned unexpected content type"

/-- Argument mappings passed to the three tools by the command parser. -/
inductive ToolArgs
  | empty
  | sql (sql : String)
  | tableName (tableName : String)
  deriving DecidableEq, Repr

/-! ## Orchestrator state and environment -/

/-- Behavior of the two external collaborators: `model i contents` is the
outcome of the `(i+1)`-st `generate_content` call of the run (`Except.error`
a raised exception, `Option String` the `response.text` attribute, which may
be `None`), and `tool i name args` the outcome of the `(i+1)`-st remote
`call_tool`.  Quantifying theorems over all oracles quantifies over all
model and tool-provider behaviors. -/
structure Oracle where
  model : Nat → List Content → Except String (Option String)
  tool : Nat → String → ToolArgs → Except String CallToolResult

/-- Mutable state of a `Chat` instance (src/client/client.py): the `messages`
list and whether `self.session` is set.  `modelCalls` and `remoteCalls` count
the external calls made so far (indexing the oracle); `callLog` is ghost
instrumentation recording each `_execute_tool_call` invocation (tool name and
arguments) in order. -/
structure ChatState where
  messages : List Message
  hasSession : Bool
  modelCalls : Nat
  remoteCalls : Nat
  callLog : List (String × ToolArgs)
  deriving DecidableEq, Repr

/-- The system prompt of the `messages` default factory of `Chat`
(src/client/client.py, lines 26-48). -/
def systemPromptText : String :=
  "You are an expert SQL analyst assistant. Your job is to:\n" ++
  "1. Analyze natural language queries and translate them into appropriate SQL statements\n" ++
  "2. Execute SQL queries using the available tools\n" ++
  "3. Present results in clear, formatted tables\n" ++
  "4. Explain your analysis when needed\n" ++
  "5. Always check the database schema first if you're unsure about table structure\n\n" ++
  "Available commands:\n" ++
  "- To get database schema: respond with 'GET_SCHEMA'\n" ++
  "- To execute SQL: respond with 'EXECUTE_SQL: your_sql_query_here'\n" ++
  "- To analyze a table: respond with 'ANALYZE_TABLE: table_name'\n\n" ++
  "When a user asks a question:\n" ++
  "1. If you need to understand the database structure, use GET_SCHEMA first\n" ++
  "2. Then construct and execute the appropriate SQL query with EXECUTE_SQL\n" ++
  "3. Present the results in a clear, readable format"

/-- The seeding System message of the store. -/
def systemMessage : Message := ⟨MessageRole.system, systemPromptText⟩

/-- A freshly constructed `Chat`: message store seeded with the System message,
`session` still `None`, no external calls made. -/
def initChatState : ChatState := ⟨[systemMessage], false, 0, 0, []⟩

/-- `initChatState` after an MCP session has been stored by
`_get_available_tools`. -/
def sessionChatState : ChatState := ⟨[systemMessage], true, 0, 0, []⟩

/-- One `genai_client.models.generate_content` call, its `contents` built by
`Chat._convert_messages_to_content` (src/client/client.py, lines 273-277,
160-164, 199-203 and 240-244). -/
def generateContent (o : Oracle) (st : ChatState) :
    Except String (Option String) × ChatState :=
  (o.model st.modelCalls (convertMessagesToContent fromTextOk st.messages),
   { st with modelCalls := st.modelCalls + 1 })

/-- State after `_execute_tool_call` has been invoked but before (or without)
the remote call: the invocation is recorded in the ghost log. -/
def loggedState (st : ChatState) (toolName : String) (arguments : ToolArgs) : ChatState :=
  { st with callLog := st.callLog ++ [(toolName, arguments)] }

/-- State after the remote `call_tool` has been issued. -/
def calledState (st : ChatState) (toolName : String) (arguments : ToolArgs) : ChatState :=
  { loggedState st toolName arguments with remoteCalls := st.remoteCalls + 1 }

/-- `Chat._execute_tool_call` from src/client/client.py (lines 107-134): with
no stored session it returns an error string without a remote call; otherwise
it performs exactly one remote call, normalizing empty content, text content,
non-text content, and a raised exception to a result string.  It never raises. -/
def executeToolCall (o : Oracle) (st : ChatState) (toolName : String)
    (arguments : ToolArgs) : String × ChatState :=
  if !st.hasSession then
    ("Error: No active MCP session", loggedState st toolName arguments)
  else
    match o.tool st.remoteCalls toolName arguments with
    | Except.error e =>
      ("Error executing tool " ++ toolName ++ ": " ++ e, calledState st toolName arguments)
    | Except.ok result =>
      match result.content with
      | [] => ("Tool executed successfully (no output)", calledState st toolName arguments)
      | item :: _ =>
        match item with
        | ContentItem.withText t => (t, calledState st toolName arguments)
        | ContentItem.noText =>
          ("Tool " ++ toolName ++ " executed but returned unexpected content type",
           calledState st toolName arguments)

/-- Python truthiness of `response.text`: `None` and `""` are falsy. -/
def truthyText : Option String → Option String
  | some t => if t = "" then none else some t
  | none => none

/-- The block shared verbatim by the three command branches of
`Chat._parse_and_execute_commands`: execute the tool call, append a Tool
message labelled `label` carrying the result, append the fixed follow-up User
prompt, issue a follow-up `generate_content`, and return its text — or
`fallbackOf toolResult` when the follow-up text is falsy, or the
`"Error parsing/executing commands: "` string when the follow-up raises (the
surrounding `try/except` of the source). -/
def commandRound (o : Oracle) (st : ChatState) (toolName : String) (arguments : ToolArgs)
    (label : String) (followupPrompt : String) (fallbackOf : String → String) :
    String × ChatState :=
  match executeToolCall o st toolName arguments with
  | (toolResult, st1) =>
    let st2 := { st1 with messages := st1.messages ++
      [Message.mk MessageRole.tool (label ++ toolResult)] }
    let st3 := { st2 with messages := st2.messages ++
      [Message.mk MessageRole.user followupPrompt] }
    match generateContent o st3 with
    | (Except.error e, st4) => ("Error parsing/executing commands: " ++ e, st4)
    | (Except.ok text, st4) => ((truthyText text).getD (fallbackOf toolResult), st4)

/-- The SQL text extracted by the `EXECUTE_SQL:` branch (src/client/client.py,
lines 172-179): from the character after the marker to the first newline after
it (or the end of the text), stripped. -/
def extractSqlQuery (responseText : String) : String :=
  let sqlStart : Int := pyFind responseText "EXECUTE_SQL:" + ("EXECUTE_SQL:" : String).length
  let sqlEndFound : Int := pyFindFrom responseText "\n" sqlStart.toNat
  let sqlEnd : Int := if sqlEndFound = -1 then (responseText.length : Int) else sqlEndFound
  pyStrip (pySlice responseText sqlStart.toNat sqlEnd.toNat)

/-- The table name extracted by the `ANALYZE_TABLE:` branch
(src/client/client.py, lines 211-220). -/
def extractTableName (responseText : String) : String :=
  let tableStart : Int := pyFind responseText "ANALYZE_TABLE:" + ("ANALYZE_TABLE:" : String).length
  let tableEndFound : Int := pyFindFrom responseText "\n" tableStart.toNat
  let tableEnd : Int := if tableEndFound = -1 then (responseText.length : Int) else tableEndFound
  pyStrip (pySlice responseText tableStart.toNat tableEnd.toNat)

/-- `Chat._parse_and_execute_commands` from src/client/client.py
(lines 136-260).  The branches are tried in source order: empty text, then
`"GET_SCHEMA" in response_text`, then `"EXECUTE_SQL:" in response_text`, then
`"ANALYZE_TABLE:" in response_text`, else the original text is returned.  Each
command branch is one `commandRound` with its tool, label, follow-up prompt
and fallback text. -/
def parseAndExecuteCommands (o : Oracle) (st : ChatState) (responseText : String) :
    String × ChatState :=
  if responseText = "" then ("No response generated", st)
  else if containsSubstr responseText "GET_SCHEMA" then
    commandRound o st "get_schema" ToolArgs.empty "Database Schema:\n"
      "Now please answer the original question using this schema information."
      (fun _ => "Schema retrieved successfully")
  else if containsSubstr responseText "EXECUTE_SQL:" then
    commandRound o st "query_data" (ToolArgs.sql (extractSqlQuery responseText))
      "SQL Query Result:\n"
      "Please provide a summary and analysis of these results."
      (fun sqlResult => "SQL executed successfully:\n" ++ sqlResult)
  else if containsSubstr responseText "ANALYZE_TABLE:" then
    commandRound o st "analyze_table" (ToolArgs.tableName (extractTableName responseText))
      "Table Analysis:\n"
      "Please provide insights based on this table analysis."
      (fun analysisResult => "Table analyzed successfully:\n" ++ analysisResult)
  else (responseText, st)

/-- `Chat.process_query` from src/client/client.py (lines 262-293): append the
User message, request a model turn, return a fallback string if its text is
falsy (no Assistant message is appended on that path), otherwise parse and
execute commands and append the resulting Assistant message.  An exception
from the model call is caught, converted to an error string, and appended as
the Assistant message. -/
def processQuery (o : Oracle) (st : ChatState) (query : String) : String × ChatState :=
  let st1 := { st with messages := st.messages ++ [Message.mk MessageRole.user query] }
  match generateContent o st1 with
  | (Except.error e, st2) =>
    let errorMsg := "Error processing query: " ++ e
    (errorMsg, { st2 with messages := st2.messages ++ [Message.mk MessageRole.assistant errorMsg] })
  | (Except.ok text, st2) =>
    match truthyText text with
    | none => ("No response generated from the AI model", st2)
    | some t =>
      let (assistantResponse, st3) := parseAndExecuteCommands o st2 t
      (assistantResponse,
       { st3 with messages := st3.messages ++ [Message.mk MessageRole.assistant assistantResponse] })

/-! ## Processors (src/client/processors.py) -/

/-- `SchemaRequestProcessor.can_handle` from src/client/processors.py:
`"GET_SCHEMA" in message.upper()`. -/
def SchemaRequestProcessor.can_handle (message : String) : Bool :=
  containsSubstr (upperString message) "GET_SCHEMA"

/-! ## Session-level operations (for the store invariants) -/

/-- One user-level operation on a `Chat`: a `process_query` call, a direct
append to the message list (the `add_message` shape of
src/client/session.py), or the Clear History reset of src/app.py
(lines 110-115): `chat.messages = chat.messages[:1]`. -/
inductive Op
  | procQuery (query : String)
  | addMessage (m : Message)
  | reset
  deriving Repr

/-- Effect of one operation on the chat state. -/
def stepOp (o : Oracle) (st : ChatState) : Op → ChatState
  | Op.procQuery q => (processQuery o st q).2
  | Op.addMessage m => { st with messages := st.messages ++ [m] }
  | Op.reset => { st with messages := st.messages.take 1 }

/-- Run a sequence of operations from a state. -/
def runOps (o : Oracle) : ChatState → List Op → ChatState
  | st, [] => st
  | st, op :: ops => runOps o (stepOp o st op) ops

/-! ## Derived observations used by the claims -/

/-- Number of Assistant messages in a store. -/
def countAssistant (msgs : List Message) : Nat :=
  (msgs.filter fun m => m.role = MessageRole.assistant).length

/-- Whether a response text contains any of the three command tokens tested by
`_parse_and_execute_commands`. -/
def hasCommandToken (t : String) : Bool :=
  containsSubstr t "GET_SCHEMA" || containsSubstr t "EXECUTE_SQL:" ||
    containsSubstr t "ANALYZE_TABLE:"

/-- The outcome of the first `generate_content` call of
`processQuery o st query` (the contents rendered after the User append). -/
def firstModelText (o : Oracle) (st : ChatState) (query : String) :
    Except String (Option String) :=
  o.model st.modelCalls
    (convertMessagesToContent fromTextOk (st.messages ++ [Message.mk MessageRole.user query]))

/-- Whether the first model response of a `processQuery` call is falsy
(`None` or `""`) without the call having raised. -/
def firstRespBlank (o : Oracle) (st : ChatState) (query : String) : Bool :=
  match firstModelText o st query with
  | Except.ok text => (truthyText text).isNone
  | Except.error _ => false

/-- An oracle whose model always answers with `text = None` and whose tool
provider always returns an empty result. -/
def emptyOracle : Oracle :=
  ⟨fun _ _ => Except.ok none, fun _ _ _ => Except.ok ⟨[]⟩⟩

/-! ## Pure characterizations of the adapters -/

/-- The wire content produced for one message by
`Chat._convert_messages_to_content` when building a part does not raise:
`none` when the role matches no branch. -/
def clientContentOf (msg : Message) : Option Content :=
  match msg.role with
  | MessageRole.system => some ⟨"user", ["[SYSTEM] " ++ msg.content]⟩
  | MessageRole.user => some ⟨"user", [msg.content]⟩
  | MessageRole.assistant => some ⟨"model", [msg.content]⟩
  | MessageRole.tool => some ⟨"model", [msg.content]⟩
  | MessageRole.other _ => none

/-- The wire content produced for one message by
`InMemoryChatSession.convert_to_gemini_content` when building a part does not
raise. -/
def geminiContentOf (msg : Message) : Content :=
  ⟨if msg.role = MessageRole.system ∨ msg.role = MessageRole.user then "user" else "model",
   [(if msg.role = MessageRole.system then "[SYSTEM] " else "") ++ msg.content]⟩

theorem convertMessagesToContentGo_ok (msgs : List Message) :
    convertMessagesToContentGo fromTextOk msgs = Except.ok (msgs.filterMap clientContentOf) := by
  induction msgs with
  | nil => rfl
  | cons msg rest ih =>
    cases h : msg.role <;>
      simp [convertMessagesToContentGo, fromTextOk, ih, List.filterMap_cons, clientContentOf, h,
        Bind.bind, Except.bind]

theorem convertMessagesToContent_ok (msgs : List Message) :
    convertMessagesToContent fromTextOk msgs = msgs.filterMap clientContentOf := by
  simp [convertMessagesToContent, convertMessagesToContentGo_ok]

theorem convertToGeminiContentGo_ok (msgs : List Message) :
    convertToGeminiContentGo fromTextOk msgs = Except.ok (msgs.map geminiContentOf) := by
  induction msgs with
  | nil => rfl
  | cons msg rest ih =>
    simp [convertToGeminiContentGo, fromTextOk, ih, geminiContentOf, Bind.bind, Except.bind]

theorem convertToGeminiContent_ok (msgs : List Message) :
    convertToGeminiContent fromTextOk msgs = msgs.map geminiContentOf := by
  simp [convertToGeminiContent, convertToGeminiContentGo_ok]

/-! ## Structural lemmas about the orchestrator -/

theorem executeToolCall_snd (o : Oracle) (st : ChatState) (toolName : String)
    (arguments : ToolArgs) :
    (executeToolCall o st toolName arguments).2 = loggedState st toolName arguments ∨
    (executeToolCall o st toolName arguments).2 = calledState st toolName arguments := by
  unfold executeToolCall
  split
  · exact Or.inl rfl
  · rcases o.tool st.remoteCalls toolName arguments with e | result
    · exact Or.inr rfl
    · rcases result with ⟨content⟩
      rcases content with _ | ⟨item, rest⟩
      · exact Or.inr rfl
      · rcases item with t | _
        · exact Or.inr rfl
        · exact Or.inr rfl

theorem executeToolCall_messages (o : Oracle) (st : ChatState) (toolName : String)
    (arguments : ToolArgs) :
    ((executeToolCall o st toolName arguments).2).messages = st.messages := by
  rcases executeToolCall_snd o st toolName arguments with h | h <;>
    rw [h] <;> rfl

theorem executeToolCall_callLog (o : Oracle) (st : ChatState) (toolName : String)
    (arguments : ToolArgs) :
    ((executeToolCall o st toolName arguments).2).callLog =
      st.callLog ++ [(toolName, arguments)] := by
  rcases executeToolCall_snd o st toolName arguments with h | h <;>
    rw [h] <;> rfl

theorem executeToolCall_modelCalls (o : Oracle) (st : ChatState) (toolName : String)
    (arguments : ToolArgs) :
    ((executeToolCall o st toolName arguments).2).modelCalls = st.modelCalls := by
  rcases executeToolCall_snd o st toolName arguments with h | h <;>
    rw [h] <;> rfl

theorem commandRound_spec (o : Oracle) (st : ChatState) (toolName : String)
    (arguments : ToolArgs) (label followupPrompt : String) (fallbackOf : String → String) :
    ∃ toolResult,
      ((commandRound o st toolName arguments label followupPrompt fallbackOf).2).messages =
        st.messages ++ [Message.mk MessageRole.tool (label ++ toolResult),
          Message.mk MessageRole.user followupPrompt] ∧
      ((commandRound o st toolName arguments label followupPrompt fallbackOf).2).callLog =
        st.callLog ++ [(toolName, arguments)] := by
  unfold commandRound
  cases hET : executeToolCall o st toolName arguments with
  | mk toolResult st1 =>
    have hm : st1.messages = st.messages := by
      have h := executeToolCall_messages o st toolName arguments
      rw [hET] at h
      exact h
    have hl : st1.callLog = st.callLog ++ [(toolName, arguments)] := by
      have h := executeToolCall_callLog o st toolName arguments
      rw [hET] at h
      exact h
    refine ⟨toolResult, ?_, ?_⟩ <;>
    · simp only [generateContent]
      split <;> rename_i heq <;> rw [Prod.mk.injEq] at heq <;>
        rcases heq with ⟨h1, h2⟩ <;> subst h2 <;> simp [hm, hl, List.append_assoc]

theorem containsSubstr_empty_left (pat : String) (hp : pat.data ≠ []) :
    containsSubstr "" pat = false := by
  have h0 : pat.data.isEmpty = false := by
    cases hd : pat.data with
    | nil => exact absurd hd hp
    | cons c rest => rfl
  show (findSubAux pat.data ([] : List Char)).isSome = false
  unfold findSubAux
  rw [h0]
  rfl

theorem containsSubstr_ne_empty {s pat : String} (hp : pat.data ≠ [])
    (h : containsSubstr s pat = true) : s ≠ "" := by
  intro hs
  rw [hs, containsSubstr_empty_left pat hp] at h
  exact Bool.false_ne_true h

theorem parse_empty_response (o : Oracle) (st : ChatState) :
    parseAndExecuteCommands o st "" = ("No response generated", st) := rfl

theorem parse_schema_branch (o : Oracle) (st : ChatState) (s : String)
    (hg : containsSubstr s "GET_SCHEMA" = true) :
    parseAndExecuteCommands o st s =
      commandRound o st "get_schema" ToolArgs.empty "Database Schema:\n"
        "Now please answer the original question using this schema information."
        (fun _ => "Schema retrieved successfully") := by
  have hne : s ≠ "" := containsSubstr_ne_empty (by decide) hg
  simp [parseAndExecuteCommands, hne, hg]

theorem parse_sql_branch (o : Oracle) (st : ChatState) (s : String)
    (hg : containsSubstr s "GET_SCHEMA" = false)
    (he : containsSubstr s "EXECUTE_SQL:" = true) :
    parseAndExecuteCommands o st s =
      commandRound o st "query_data" (ToolArgs.sql (extractSqlQuery s))
        "SQL Query Result:\n"
        "Please provide a summary and analysis of these results."
        (fun sqlResult => "SQL executed successfully:\n" ++ sqlResult) := by
  have hne : s ≠ "" := containsSubstr_ne_empty (by decide) he
  simp [parseAndExecuteCommands, hne, hg, he]

theorem parse_analyze_branch (o : Oracle) (st : ChatState) (s : String)
    (hg : containsSubstr s "GET_SCHEMA" = false)
    (he : containsSubstr s "EXECUTE_SQL:" = false)
    (ha : containsSubstr s "ANALYZE_TABLE:" = true) :
    parseAndExecuteCommands o st s =
      commandRound o st "analyze_table" (ToolArgs.tableName (extractTableName s))
        "Table Analysis:\n"
        "Please provide insights based on this table analysis."
        (fun analysisResult => "Table analyzed successfully:\n" ++ analysisResult) := by
  have hne : s ≠ "" := containsSubstr_ne_empty (by decide) ha
  simp [parseAndExecuteCommands, hne, hg, he, ha]

theorem parse_no_command (o : Oracle) (st : ChatState) (s : String) (hne : s ≠ "")
    (h : hasCommandToken s = false) :
    parseAndExecuteCommands o st s = (s, st) := by
  unfold hasCommandToken at h
  rw [Bool.or_eq_false_iff, Bool.or_eq_false_iff] at h
  obtain ⟨⟨hg, he⟩, ha⟩ := h
  simp [parseAndExecuteCommands, hne, hg, he, ha]

theorem parse_messages (o : Oracle) (st : ChatState) (s : String) :
    ∃ appended, ((parseAndExecuteCommands o st s).2).messages = st.messages ++ appended ∧
      ((hasCommandToken s = false ∧ appended = []) ∨
       (hasCommandToken s = true ∧ ∃ m1 m2, appended = [m1, m2] ∧
         m1.role = MessageRole.tool ∧ m2.role = MessageRole.user)) := by
  by_cases hne : s = ""
  · subst hne
    exact ⟨[], by simp [parse_empty_response], Or.inl ⟨by decide, rfl⟩⟩
  by_cases hg : containsSubstr s "GET_SCHEMA" = true
  · rw [parse_schema_branch o st s hg]
    obtain ⟨r, hm, _⟩ := commandRound_spec o st "get_schema" ToolArgs.empty
      "Database Schema:\n"
      "Now please answer the original question using this schema information."
      (fun _ => "Schema retrieved successfully")
    exact ⟨_, hm, Or.inr ⟨by simp [hasCommandToken, hg], _, _, rfl, rfl, rfl⟩⟩
  rw [Bool.not_eq_true] at hg
  by_cases he : containsSubstr s "EXECUTE_SQL:" = true
  · rw [parse_sql_branch o st s hg he]
    obtain ⟨r, hm, _⟩ := commandRound_spec o st "query_data"
      (ToolArgs.sql (extractSqlQuery s)) "SQL Query Result:\n"
      "Please provide a summary and analysis of these results."
      (fun sqlResult => "SQL executed successfully:\n" ++ sqlResult)
    exact ⟨_, hm, Or.inr ⟨by simp [hasCommandToken, he], _, _, rfl, rfl, rfl⟩⟩
  rw [Bool.not_eq_true] at he
  by_cases ha : containsSubstr s "ANALYZE_TABLE:" = true
  · rw [parse_analyze_branch o st s hg he ha]
    obtain ⟨r, hm, _⟩ := commandRound_spec o st "analyze_table"
      (ToolArgs.tableName (extractTableName s)) "Table Analysis:\n"
      "Please provide insights based on this table analysis."
      (fun analysisResult => "Table analyzed successfully:\n" ++ analysisResult)
    exact ⟨_, hm, Or.inr ⟨by simp [hasCommandToken, ha], _, _, rfl, rfl, rfl⟩⟩
  rw [Bool.not_eq_true] at ha
  have hc : hasCommandToken s = false := by simp [hasCommandToken, hg, he, ha]
  rw [parse_no_command o st s hne hc]
  exact ⟨[], by simp, Or.inl ⟨hc, rfl⟩⟩

/-- The state of `processQuery` after the User append and the first
`generate_content` call. -/
def afterUserState (st : ChatState) (query : String) : ChatState :=
  { st with
    messages := st.messages ++ [Message.mk MessageRole.user query]
    modelCalls := st.modelCalls + 1 }

theorem processQuery_of_error (o : Oracle) (st : ChatState) (q e : String)
    (h : firstModelText o st q = Except.error e) :
    processQuery o st q =
      ("Error processing query: " ++ e,
       { afterUserState st q with messages := (afterUserState st q).messages ++
         [Message.mk MessageRole.assistant ("Error processing query: " ++ e)] }) := by
  unfold firstModelText at h
  unfold processQuery
  simp only [generateContent]
  rw [h]
  simp [afterUserState]

theorem processQuery_of_blank (o : Oracle) (st : ChatState) (q : String)
    (text : Option String) (h : firstModelText o st q = Except.ok text)
    (hb : truthyText text = none) :
    processQuery o st q = ("No response generated from the AI model", afterUserState st q) := by
  unfold firstModelText at h
  unfold processQuery
  simp only [generateContent]
  rw [h]
  simp [hb, afterUserState]

theorem processQuery_of_text (o : Oracle) (st : ChatState) (q t : String)
    (h : firstModelText o st q = Except.ok (some t)) (ht : t ≠ "") :
    processQuery o st q =
      ((parseAndExecuteCommands o (afterUserState st q) t).1,
       { (parseAndExecuteCommands o (afterUserState st q) t).2 with
         messages := ((parseAndExecuteCommands o (afterUserState st q) t).2).messages ++
           [Message.mk MessageRole.assistant
             ((parseAndExecuteCommands o (afterUserState st q) t).1)] }) := by
  unfold firstModelText at h
  unfold processQuery
  simp only [generateContent]
  rw [h]
  simp only [truthyText, if_neg ht]
  cases hP : parseAndExecuteCommands o (afterUserState st q) t with
  | mk r st3 =>
    have hP2 : parseAndExecuteCommands o
        { st with
          messages := st.messages ++ [Message.mk MessageRole.user q]
          modelCalls := st.modelCalls + 1 } t = (r, st3) := hP
    rw [hP2]

theorem processQuery_appends (o : Oracle) (st : ChatState) (q : String) :
    ∃ appended, ((processQuery o st q).2).messages = st.messages ++ appended := by
  rcases hfm : firstModelText o st q with e | text
  · rw [processQuery_of_error o st q e hfm]
    refine ⟨[Message.mk MessageRole.user q,
      Message.mk MessageRole.assistant ("Error processing query: " ++ e)], ?_⟩
    simp [afterUserState]
  · rcases hb : truthyText text with _ | t
    · rw [processQuery_of_blank o st q text hfm hb]
      exact ⟨[Message.mk MessageRole.user q], by simp [afterUserState]⟩
    · have ht : text = some t ∧ t ≠ "" := by
        rcases text with _ | u
        · simp [truthyText] at hb
        · by_cases hu : u = ""
          · simp [truthyText, hu] at hb
          · simp only [truthyText, if_neg hu] at hb
            cases hb
            exact ⟨rfl, hu⟩
      obtain ⟨htext, htne⟩ := ht
      subst htext
      rw [processQuery_of_text o st q t hfm htne]
      obtain ⟨app, hm, _⟩ := parse_messages o (afterUserState st q) t
      refine ⟨[Message.mk MessageRole.user q] ++ app ++
        [Message.mk MessageRole.assistant ((parseAndExecuteCommands o (afterUserState st q) t).1)], ?_⟩
      dsimp only
      rw [hm]
      simp [afterUserState, List.append_assoc]

theorem truthyText_eq_some {text : Option String} {t : String}
    (h : truthyText text = some t) : text = some t ∧ t ≠ "" := by
  rcases text with _ | u
  · simp [truthyText] at h
  · by_cases hu : u = ""
    · simp [truthyText, hu] at h
    · simp only [truthyText, if_neg hu] at h
      cases h
      exact ⟨rfl, hu⟩

theorem countAssistant_no_assistant (msgs : List Message)
    (h : ∀ m ∈ msgs, m.role ≠ MessageRole.assistant) : countAssistant msgs = 0 := by
  unfold countAssistant
  rw [List.length_eq_zero, List.filter_eq_nil_iff]
  intro m hm
  simpa using h m hm

/-- An oracle whose model always answers with the fixed text `t` and whose
tool provider always returns an empty result. -/
def textOracle (t : String) : Oracle :=
  ⟨fun _ _ => Except.ok (some t), fun _ _ _ => Except.ok ⟨[]⟩⟩

/-! ## C1 -/

/-- C1, counterexample: when the model returns a response with empty text (a
behavior of the model), `process_query` returns the fallback string without
raising, but appends no Assistant message at all — the store ends with an
unanswered User message.  This falsifies the claim that every `process_query`
call appends exactly one Assistant message by the time it returns. -/
theorem processQuery_blank_response_no_assistant :
    (processQuery emptyOracle initChatState "hi").1 =
      "No response generated from the AI model" ∧
    countAssistant ((processQuery emptyOracle initChatState "hi").2).messages = 0 ∧
    ((processQuery emptyOracle initChatState "hi").2).messages.map Message.role =
      [MessageRole.system, MessageRole.user] := by decide

/-- C1 (amended): `process_query` never raises (it is a total function of the
oracle), and it appends exactly one Assistant message — carrying the returned
string — by the time it returns, except when the model's first response text
is falsy (`None` or `""`): on that path it appends nothing beyond the User
message and returns the fallback string, leaving the User message
unanswered. -/
theorem processQuery_never_raises_one_assistant (o : Oracle) (st : ChatState) (q : String) :
    (firstRespBlank o st q = true →
      ((processQuery o st q).2).messages = st.messages ++ [Message.mk MessageRole.user q] ∧
      (processQuery o st q).1 = "No response generated from the AI model") ∧
    (firstRespBlank o st q = false →
      ∃ mid, ((processQuery o st q).2).messages =
        st.messages ++ [Message.mk MessageRole.user q] ++ mid ++
          [Message.mk MessageRole.assistant ((processQuery o st q).1)] ∧
        countAssistant mid = 0) := by
  constructor
  · intro hb
    unfold firstRespBlank at hb
    rcases hfm : firstModelText o st q with e | text
    · rw [hfm] at hb
      simp at hb
    · rw [hfm] at hb
      have hn : truthyText text = none := Option.isNone_iff_eq_none.mp hb
      rw [processQuery_of_blank o st q text hfm hn]
      exact ⟨by simp [afterUserState], rfl⟩
  · intro hb
    unfold firstRespBlank at hb
    rcases hfm : firstModelText o st q with e | text
    · rw [processQuery_of_error o st q e hfm]
      refine ⟨[], ?_, rfl⟩
      simp [afterUserState, List.append_assoc]
    · rw [hfm] at hb
      dsimp only at hb
      rcases ht : truthyText text with _ | t
      · rw [ht] at hb
        simp at hb
      · obtain ⟨htext, htne⟩ := truthyText_eq_some ht
        subst htext
        rw [processQuery_of_text o st q t hfm htne]
        obtain ⟨app, hm, hsh⟩ := parse_messages o (afterUserState st q) t
        refine ⟨app, ?_, ?_⟩
        · dsimp only
          rw [hm]
          simp [afterUserState, List.append_assoc]
        · rcases hsh with ⟨_, happ⟩ | ⟨_, m1, m2, happ, h1, h2⟩
          · subst happ
            rfl
          · subst happ
            apply countAssistant_no_assistant
            intro m hmem
            simp only [List.mem_cons, List.mem_singleton] at hmem
            rcases hmem with rfl | rfl | hfalse
            · simp [h1]
            · simp [h2]
            · cases hfalse

theorem processQuery_never_raises_one_assistant_witness :
    ((processQuery emptyOracle initChatState "hi").2).messages =
      initChatState.messages ++ [Message.mk MessageRole.user "hi"] ∧
    (processQuery emptyOracle initChatState "hi").1 =
      "No response generated from the AI model" :=
  (processQuery_never_raises_one_assistant emptyOracle initChatState "hi").1 (by decide)

/-! ## C2 -/

/-- C2, counterexample: a `process_query` call that completes without raising
(the model returned a response whose text is empty) triggers no tool command,
yet appends exactly one message (the User message), not two.  This falsifies
the claim that every successful call with no tool command appends exactly two
messages. -/
theorem processQuery_blank_appends_one :
    (processQuery emptyOracle initChatState "question").1 =
      "No response generated from the AI model" ∧
    ((processQuery emptyOracle initChatState "question").2).callLog = [] ∧
    ((processQuery emptyOracle initChatState "question").2).messages.length =
      initChatState.messages.length + 1 := by decide

/-- C2 (amended): for every `process_query` call in which the model's first
response is non-empty text `t`: if `t` triggers no command token, exactly two
messages are appended (User, Assistant); if it triggers a command (the only
possibility is one command per response), exactly `2 + 2·1 = 4` are appended
(User, Tool, internal follow-up User, Assistant) — determined by the model's
behavior. -/
theorem processQuery_message_counts (o : Oracle) (st : ChatState) (q t : String)
    (h : firstModelText o st q = Except.ok (some t)) (ht : t ≠ "") :
    ((processQuery o st q).2).messages.map Message.role =
      st.messages.map Message.role ++
        (if hasCommandToken t then
          [MessageRole.user, MessageRole.tool, MessageRole.user, MessageRole.assistant]
         else [MessageRole.user, MessageRole.assistant]) ∧
    ((processQuery o st q).2).messages.length =
      st.messages.length + (if hasCommandToken t then 4 else 2) := by
  rw [processQuery_of_text o st q t h ht]
  obtain ⟨app, hm, hsh⟩ := parse_messages o (afterUserState st q) t
  rcases hsh with ⟨hc, happ⟩ | ⟨hc, m1, m2, happ, h1, h2⟩
  · subst happ
    rw [hc]
    constructor
    · dsimp only
      rw [hm]
      simp [afterUserState, List.append_assoc]
    · dsimp only
      rw [hm]
      simp [afterUserState]
  · subst happ
    rw [hc]
    constructor
    · dsimp only
      rw [hm]
      simp [afterUserState, h1, h2, List.append_assoc]
    · dsimp only
      rw [hm]
      simp [afterUserState]

theorem processQuery_message_counts_witness :
    ((processQuery (textOracle "hello") initChatState "hi").2).messages.map Message.role =
      initChatState.messages.map Message.role ++
        (if hasCommandToken "hello" then
          [MessageRole.user, MessageRole.tool, MessageRole.user, MessageRole.assistant]
         else [MessageRole.user, MessageRole.assistant]) ∧
    ((processQuery (textOracle "hello") initChatState "hi").2).messages.length =
      initChatState.messages.length + (if hasCommandToken "hello" then 4 else 2) :=
  processQuery_message_counts (textOracle "hello") initChatState "hi" "hello"
    rfl (by decide)

/-! ## C3 -/

theorem charToNat_ofNat {n : Nat} (h : n.isValidChar) : (Char.ofNat n).toNat = n := by
  simp only [Char.ofNat, dif_pos h]
  rfl

theorem toUpper_toLower (c : Char) : c.toLower.toUpper = c.toUpper := by
  simp only [Char.toLower, Char.toUpper]
  by_cases h1 : c.toNat ≥ 65 ∧ c.toNat ≤ 90
  · rw [if_pos h1]
    have hv : (c.toNat + 32).isValidChar := Or.inl (by omega)
    have ht : (Char.ofNat (c.toNat + 32)).toNat = c.toNat + 32 := charToNat_ofNat hv
    rw [ht]
    rw [if_pos (by omega : c.toNat + 32 ≥ 97 ∧ c.toNat + 32 ≤ 122)]
    rw [if_neg (by omega : ¬(c.toNat ≥ 97 ∧ c.toNat ≤ 122))]
    have h32 : c.toNat + 32 - 32 = c.toNat := by omega
    rw [h32, Char.ofNat_toNat]
  · rw [if_neg h1]

theorem upper_lower (s : String) : upperString (lowerString s) = upperString s := by
  unfold upperString lowerString
  have hf : (Char.toUpper ∘ Char.toLower) = Char.toUpper := funext toUpper_toLower
  rw [List.map_map, hf]

/-- C3, counterexample: a response consisting of the lowercase token
`get_schema` is not classified as a schema command by
`Chat._parse_and_execute_commands` — it is returned unchanged with no tool
call — even though `SchemaRequestProcessor.can_handle` accepts it.  This
falsifies the claim that the token-mode detector of the `Chat` loop is
case-insensitive. -/
theorem lowercase_get_schema_not_detected :
    parseAndExecuteCommands emptyOracle sessionChatState "get_schema" =
      ("get_schema", sessionChatState) ∧
    SchemaRequestProcessor.can_handle "get_schema" = true := by decide

/-- C3 (amended): detection is case-insensitive in the processors
(`SchemaRequestProcessor.can_handle` upper-cases the message, so its verdict
is invariant under lower-casing), but `Chat._parse_and_execute_commands`
matches the tokens case-sensitively: a response containing none of the exact
tokens `GET_SCHEMA`, `EXECUTE_SQL:`, `ANALYZE_TABLE:` — whatever other casing
of them it contains — is returned unchanged with zero tool calls. -/
theorem token_detection_case_sensitivity :
    (∀ s : String,
      SchemaRequestProcessor.can_handle (lowerString s) =
        SchemaRequestProcessor.can_handle s) ∧
    (∀ (o : Oracle) (st : ChatState) (s : String), s ≠ "" → hasCommandToken s = false →
      parseAndExecuteCommands o st s = (s, st)) :=
  ⟨fun s => by unfold SchemaRequestProcessor.can_handle; rw [upper_lower],
   fun o st s hne h => parse_no_command o st s hne h⟩

theorem token_detection_case_sensitivity_witness :
    SchemaRequestProcessor.can_handle (lowerString "GET_SCHEMA please") =
      SchemaRequestProcessor.can_handle "GET_SCHEMA please" ∧
    parseAndExecuteCommands emptyOracle initChatState "hello" = ("hello", initChatState) :=
  ⟨token_detection_case_sensitivity.1 "GET_SCHEMA please",
   token_detection_case_sensitivity.2 emptyOracle initChatState "hello"
     (by decide) (by decide)⟩

/-! ## C4 -/

theorem parse_callLog_schema (o : Oracle) (st : ChatState) (s : String)
    (hg : containsSubstr s "GET_SCHEMA" = true) :
    ((parseAndExecuteCommands o st s).2).callLog =
      st.callLog ++ [("get_schema", ToolArgs.empty)] := by
  rw [parse_schema_branch o st s hg]
  obtain ⟨r, _, hl⟩ := commandRound_spec o st "get_schema" ToolArgs.empty
    "Database Schema:\n"
    "Now please answer the original question using this schema information."
    (fun _ => "Schema retrieved successfully")
  exact hl

theorem parse_callLog_sql (o : Oracle) (st : ChatState) (s : String)
    (hg : containsSubstr s "GET_SCHEMA" = false)
    (he : containsSubstr s "EXECUTE_SQL:" = true) :
    ((parseAndExecuteCommands o st s).2).callLog =
      st.callLog ++ [("query_data", ToolArgs.sql (extractSqlQuery s))] := by
  rw [parse_sql_branch o st s hg he]
  obtain ⟨r, _, hl⟩ := commandRound_spec o st "query_data"
    (ToolArgs.sql (extractSqlQuery s)) "SQL Query Result:\n"
    "Please provide a summary and analysis of these results."
    (fun sqlResult => "SQL executed successfully:\n" ++ sqlResult)
  exact hl

theorem parse_callLog_analyze (o : Oracle) (st : ChatState) (s : String)
    (hg : containsSubstr s "GET_SCHEMA" = false)
    (he : containsSubstr s "EXECUTE_SQL:" = false)
    (ha : containsSubstr s "ANALYZE_TABLE:" = true) :
    ((parseAndExecuteCommands o st s).2).callLog =
      st.callLog ++ [("analyze_table", ToolArgs.tableName (extractTableName s))] := by
  rw [parse_analyze_branch o st s hg he ha]
  obtain ⟨r, _, hl⟩ := commandRound_spec o st "analyze_table"
    (ToolArgs.tableName (extractTableName s)) "Table Analysis:\n"
    "Please provide insights based on this table analysis."
    (fun analysisResult => "Table analyzed successfully:\n" ++ analysisResult)
  exact hl

theorem parse_callLog_none (o : Oracle) (st : ChatState) (s : String)
    (hc : hasCommandToken s = false) :
    ((parseAndExecuteCommands o st s).2).callLog = st.callLog := by
  by_cases hne : s = ""
  · subst hne
    rw [parse_empty_response]
  · rw [parse_no_command o st s hne hc]

/-- C4, counterexample: in the response
`"EXECUTE_SQL: SELECT 1\nGET_SCHEMA"` the first recognized token in textual
order is `EXECUTE_SQL:` (index 0, before `GET_SCHEMA` at index 22), yet the
command executed is `get_schema` — the branch order of the parser, not the
textual order, decides.  This falsifies the claim that the first token in
order of appearance wins. -/
theorem execute_sql_first_but_get_schema_wins :
    (((parseAndExecuteCommands emptyOracle sessionChatState
        "EXECUTE_SQL: SELECT 1\nGET_SCHEMA").2).callLog =
      [("get_schema", ToolArgs.empty)]) ∧
    pyFind "EXECUTE_SQL: SELECT 1\nGET_SCHEMA" "EXECUTE_SQL:" = 0 ∧
    pyFind "EXECUTE_SQL: SELECT 1\nGET_SCHEMA" "GET_SCHEMA" = 22 := by decide

/-- C4 (amended): at most one command is executed per response, and when more
than one recognized token appears, the executed command is chosen by the fixed
branch priority `GET_SCHEMA`, then `EXECUTE_SQL:`, then `ANALYZE_TABLE:`,
regardless of the order in which the tokens appear in the text. -/
theorem command_priority_order (o : Oracle) (st : ChatState) (s : String) :
    ((parseAndExecuteCommands o st s).2).callLog.length ≤ st.callLog.length + 1 ∧
    (containsSubstr s "GET_SCHEMA" = true →
      ((parseAndExecuteCommands o st s).2).callLog =
        st.callLog ++ [("get_schema", ToolArgs.empty)]) ∧
    (containsSubstr s "GET_SCHEMA" = false → containsSubstr s "EXECUTE_SQL:" = true →
      ((parseAndExecuteCommands o st s).2).callLog =
        st.callLog ++ [("query_data", ToolArgs.sql (extractSqlQuery s))]) ∧
    (containsSubstr s "GET_SCHEMA" = false → containsSubstr s "EXECUTE_SQL:" = false →
      containsSubstr s "ANALYZE_TABLE:" = true →
      ((parseAndExecuteCommands o st s).2).callLog =
        st.callLog ++ [("analyze_table", ToolArgs.tableName (extractTableName s))]) ∧
    (hasCommandToken s = false →
      ((parseAndExecuteCommands o st s).2).callLog = st.callLog) := by
  refine ⟨?_, parse_callLog_schema o st s, parse_callLog_sql o st s,
    parse_callLog_analyze o st s, parse_callLog_none o st s⟩
  by_cases hg : containsSubstr s "GET_SCHEMA" = true
  · rw [parse_callLog_schema o st s hg]
    simp
  rw [Bool.not_eq_true] at hg
  by_cases he : containsSubstr s "EXECUTE_SQL:" = true
  · rw [parse_callLog_sql o st s hg he]
    simp
  rw [Bool.not_eq_true] at he
  by_cases ha : containsSubstr s "ANALYZE_TABLE:" = true
  · rw [parse_callLog_analyze o st s hg he ha]
    simp
  rw [Bool.not_eq_true] at ha
  have hc : hasCommandToken s = false := by simp [hasCommandToken, hg, he, ha]
  rw [parse_callLog_none o st s hc]
  exact Nat.le_succ _

theorem command_priority_order_witness :
    ((parseAndExecuteCommands emptyOracle sessionChatState "GET_SCHEMA").2).callLog =
      sessionChatState.callLog ++ [("get_schema", ToolArgs.empty)] :=
  (command_priority_order emptyOracle sessionChatState "GET_SCHEMA").2.1 (by decide)

/-! ## C5 -/

/-- C5, counterexample: the empty response text contains no recognized command
token, yet `_parse_and_execute_commands` does not return it unchanged — it
returns the fixed string `"No response generated"`.  This falsifies the claim
for the one input its universally quantified final clause overlooked. -/
theorem empty_input_not_returned_unchanged :
    hasCommandToken "" = false ∧
    (parseAndExecuteCommands emptyOracle initChatState "").1 = "No response generated" ∧
    ¬((parseAndExecuteCommands emptyOracle initChatState "").1 = "") := by decide

/-- C5 (amended): `EXECUTE_SQL: SELECT 1` extracts exactly `"SELECT 1"` and
passes it to the `query_data` tool; with a newline and further text the
extraction still stops at the first newline after the marker; and every
nonempty input containing no recognized token is returned unchanged with zero
tool calls (the empty input instead returns `"No response generated"`). -/
theorem token_mode_sql_extraction :
    extractSqlQuery "EXECUTE_SQL: SELECT 1" = "SELECT 1" ∧
    extractSqlQuery "EXECUTE_SQL: SELECT 1\nExplanation text" = "SELECT 1" ∧
    ((parseAndExecuteCommands emptyOracle sessionChatState
        "EXECUTE_SQL: SELECT 1").2).callLog =
      [("query_data", ToolArgs.sql "SELECT 1")] ∧
    ((parseAndExecuteCommands emptyOracle sessionChatState
        "EXECUTE_SQL: SELECT 1\nExplanation text").2).callLog =
      [("query_data", ToolArgs.sql "SELECT 1")] ∧
    (∀ (o : Oracle) (st : ChatState) (s : String), s ≠ "" → hasCommandToken s = false →
      parseAndExecuteCommands o st s = (s, st)) :=
  ⟨by decide, by decide, by decide, by decide,
   fun o st s hne h => parse_no_command o st s hne h⟩

theorem token_mode_sql_extraction_witness :
    parseAndExecuteCommands emptyOracle initChatState "Just text." =
      ("Just text.", initChatState) :=
  token_mode_sql_extraction.2.2.2.2 emptyOracle initChatState "Just text."
    (by decide) (by decide)

/-! ## C6 -/

theorem errorToolString (toolName e : String) :
    "Error executing tool " ++ toolName ++ ": " ++ e =
      "Error executing tool" ++ (" " ++ toolName ++ ": " ++ e) := by
  apply String.ext
  have h : ("Error executing tool " : String).data =
      ("Error executing tool" : String).data ++ (" " : String).data := by decide
  simp [String.data_append, h, List.append_assoc]

/-- An oracle whose tool provider raises on every remote call. -/
def failingToolOracle : Oracle :=
  ⟨fun _ _ => Except.ok none, fun _ _ _ => Except.error "boom"⟩

/-- C6: the tool executor (`MCPToolExecutor.execute_tool`, and
`Chat._execute_tool_call` when a session is stored) never raises — both are
total functions into `String` — and: an empty provider result yields exactly
`"Tool executed successfully (no output)"`, and a raised remote exception is
converted to an error string that begins with `"Error executing tool"`. -/
theorem tool_executor_normalizes_outcomes (toolName e : String) (args : ToolArgs)
    (o : Oracle) (st : ChatState) :
    (executeToolOutcome toolName (Except.error e) =
      "Error executing tool" ++ (" " ++ toolName ++ ": " ++ e)) ∧
    (executeToolOutcome toolName (Except.ok ⟨[]⟩) =
      "Tool executed successfully (no output)") ∧
    (st.hasSession = true → o.tool st.remoteCalls toolName args = Except.error e →
      (executeToolCall o st toolName args).1 =
        "Error executing tool" ++ (" " ++ toolName ++ ": " ++ e)) ∧
    (st.hasSession = true → o.tool st.remoteCalls toolName args = Except.ok ⟨[]⟩ →
      (executeToolCall o st toolName args).1 =
        "Tool executed successfully (no output)") := by
  refine ⟨?_, rfl, ?_, ?_⟩
  · show "Error executing tool " ++ toolName ++ ": " ++ e = _
    exact errorToolString toolName e
  · intro hs hto
    simp only [executeToolCall, hs, Bool.not_true, Bool.false_eq_true, if_false, hto]
    exact errorToolString toolName e
  · intro hs hto
    simp only [executeToolCall, hs, Bool.not_true, Bool.false_eq_true, if_false, hto]

theorem tool_executor_normalizes_outcomes_witness :
    (executeToolCall failingToolOracle sessionChatState "query_data"
        (ToolArgs.sql "SELECT 1")).1 =
      "Error executing tool" ++ (" " ++ "query_data" ++ ": " ++ "boom") ∧
    executeToolOutcome "query_data" (Except.ok ⟨[]⟩) =
      "Tool executed successfully (no output)" :=
  ⟨(tool_executor_normalizes_outcomes "query_data" "boom" (ToolArgs.sql "SELECT 1")
      failingToolOracle sessionChatState).2.2.1 rfl rfl,
   (tool_executor_normalizes_outcomes "query_data" "boom" (ToolArgs.sql "SELECT 1")
      failingToolOracle sessionChatState).2.1⟩

/-! ## C7 -/

/-- C7, counterexample: for a message whose role is outside the four
recognized roles, no adapter fails with a `MappingError` (no such failure
exists in the code): `Chat._convert_messages_to_content` silently drops the
message's content from the rendered output, and the other two adapters
silently map it to another role (`"model"` in session.py, `"user"` in
chat.py).  This falsifies the claim. -/
theorem unknown_role_silently_dropped :
    convertMessagesToContent fromTextOk
      [Message.mk (MessageRole.other "function") "hello"] = [] ∧
    convertToGeminiContent fromTextOk
      [Message.mk (MessageRole.other "function") "hello"] =
      [Content.mk "model" ["hello"]] ∧
    chatPyContentList [DictMessage.mk "function" "hello"] =
      [Content.mk "user" ["hello"]] := by decide

/-- C7 (amended): a message with an unrecognized role never produces a
`MappingError` (none exists in the code); instead
`Chat._convert_messages_to_content` silently drops it, while
`InMemoryChatSession.convert_to_gemini_content` renders it under the
`"model"` wire role and chat.py's role mapping renders it under the `"user"`
wire role (content preserved in those two). -/
theorem unknown_role_mapping (roleName content author : String) :
    convertMessagesToContent fromTextOk
      [Message.mk (MessageRole.other roleName) content] = [] ∧
    convertToGeminiContent fromTextOk
      [Message.mk (MessageRole.other roleName) content] =
      [Content.mk "model" [content]] ∧
    (author ≠ "system" → author ≠ "user" → author ≠ "assistant" →
      chatPyContentList [DictMessage.mk author content] =
        [Content.mk "user" [content]]) := by
  refine ⟨?_, ?_, ?_⟩
  · rw [convertMessagesToContent_ok]
    simp [clientContentOf]
  · rw [convertToGeminiContent_ok]
    simp [geminiContentOf]
  · intro h1 h2 h3
    simp [chatPyContentList, h1, h2, h3]

theorem unknown_role_mapping_witness :
    chatPyContentList [DictMessage.mk "function" "hello"] =
      [Content.mk "user" ["hello"]] :=
  (unknown_role_mapping "function" "hello" "function").2.2
    (by decide) (by decide) (by decide)

/-! ## C8 -/

theorem stepOp_head (o : Oracle) (st : ChatState) (op : Op)
    (h : st.messages.head? = some systemMessage) :
    (stepOp o st op).messages.head? = some systemMessage := by
  rcases hmsg : st.messages with _ | ⟨m, rest⟩
  · rw [hmsg] at h
    simp at h
  · have hm : m = systemMessage := by
      rw [hmsg] at h
      simpa using h
    subst hm
    cases op with
    | procQuery q =>
      obtain ⟨app, happ⟩ := processQuery_appends o st q
      show ((processQuery o st q).2).messages.head? = some systemMessage
      rw [happ, hmsg]
      simp
    | addMessage m2 =>
      show (st.messages ++ [m2]).head? = some systemMessage
      rw [hmsg]
      simp
    | reset =>
      show (st.messages.take 1).head? = some systemMessage
      rw [hmsg]
      simp

theorem runOps_head (o : Oracle) (ops : List Op) :
    ∀ st : ChatState, st.messages.head? = some systemMessage →
      (runOps o st ops).messages.head? = some systemMessage := by
  induction ops with
  | nil => exact fun st h => h
  | cons op ops ih => exact fun st h => ih (stepOp o st op) (stepOp_head o st op h)

/-- C8: in every run from a fresh `Chat` and for every sequence of operations
(`process_query` calls, message appends, explicit resets), the first message
of the store is always the seeding System message; a reset leaves the store
re-seeded with exactly that one System message; and every non-reset operation
only appends — the existing messages stay an unchanged initial segment, so
the count only grows and the order never changes. -/
theorem message_store_invariants (o : Oracle) (ops : List Op) :
    ((runOps o initChatState ops).messages.head? = some systemMessage) ∧
    (∀ (st : ChatState) (op : Op), st.messages.head? = some systemMessage →
      (op = Op.reset → (stepOp o st op).messages = [systemMessage]) ∧
      (op ≠ Op.reset → ∃ appended, (stepOp o st op).messages = st.messages ++ appended)) := by
  constructor
  · exact runOps_head o ops initChatState rfl
  · intro st op h
    constructor
    · intro hr
      subst hr
      rcases hmsg : st.messages with _ | ⟨m, rest⟩
      · rw [hmsg] at h
        simp at h
      · have hm : m = systemMessage := by
          rw [hmsg] at h
          simpa using h
        subst hm
        show (st.messages.take 1) = [systemMessage]
        rw [hmsg]
        rfl
    · intro hnr
      cases op with
      | procQuery q => exact processQuery_appends o st q
      | addMessage m2 => exact ⟨[m2], rfl⟩
      | reset => exact absurd rfl hnr

theorem message_store_invariants_witness :
    ((runOps emptyOracle initChatState
        [Op.addMessage (Message.mk MessageRole.user "x"), Op.reset]).messages.head? =
      some systemMessage) ∧
    (stepOp emptyOracle initChatState Op.reset).messages = [systemMessage] :=
  ⟨(message_store_invariants emptyOracle
      [Op.addMessage (Message.mk MessageRole.user "x"), Op.reset]).1,
   ((message_store_invariants emptyOracle []).2 initChatState Op.reset rfl).1 rfl⟩

/-! ## C9 -/

/-- C9: appending a tool-executor payload as a Tool message (with the label
the orchestrator prefixes) and rendering the store through either content
adapter yields wire content whose final element carries the stored text
verbatim under the `"model"` role — the payload text is preserved exactly, as
a suffix of the rendered part, with no truncation or re-escaping. -/
theorem tool_result_round_trip (payload : String) (msgs : List Message) :
    (∃ cs, convertMessagesToContent fromTextOk
        (msgs ++ [Message.mk MessageRole.tool ("SQL Query Result:\n" ++ payload)]) =
      cs ++ [Content.mk "model" ["SQL Query Result:\n" ++ payload]]) ∧
    (∃ cs, convertToGeminiContent fromTextOk
        (msgs ++ [Message.mk MessageRole.tool ("SQL Query Result:\n" ++ payload)]) =
      cs ++ [Content.mk "model" ["SQL Query Result:\n" ++ payload]]) ∧
    (∃ pre : String, "SQL Query Result:\n" ++ payload = pre ++ payload) := by
  refine ⟨⟨msgs.filterMap clientContentOf, ?_⟩, ⟨msgs.map geminiContentOf, ?_⟩,
    ⟨"SQL Query Result:\n", rfl⟩⟩
  · rw [convertMessagesToContent_ok, List.filterMap_append]
    simp [clientContentOf]
  · rw [convertToGeminiContent_ok, List.map_append]
    simp [geminiContentOf]

/-! ## C10 -/

/-- The text `Part.from_text` is called on for one message in
`Chat._convert_messages_to_content`, when the message is rendered at all. -/
def clientRenderInput (msg : Message) : Option String :=
  match msg.role with
  | MessageRole.system => some ("[SYSTEM] " ++ msg.content)
  | MessageRole.user => some msg.content
  | MessageRole.assistant => some msg.content
  | MessageRole.tool => some msg.content
  | MessageRole.other _ => none

/-- The conversion of `msg` raises inside `Chat._convert_messages_to_content`. -/
def clientPartFails (fromText : String → Except String String) (msg : Message) : Prop :=
  ∃ t e, clientRenderInput msg = some t ∧ fromText t = Except.error e

/-- The conversion of `msg` raises inside
`InMemoryChatSession.convert_to_gemini_content`. -/
def sessionPartFails (fromText : String → Except String String) (msg : Message) : Prop :=
  ∃ e, fromText ((if msg.role = MessageRole.system then "[SYSTEM] " else "") ++ msg.content) =
    Except.error e

theorem clientGo_error (fromText : String → Except String String) (msgs : List Message)
    (msg : Message) (hmem : msg ∈ msgs) (hf : clientPartFails fromText msg) :
    ∃ e, convertMessagesToContentGo fromText msgs = Except.error e := by
  induction msgs with
  | nil => cases hmem
  | cons m rest ih =>
    rcases List.mem_cons.mp hmem with heq | hmem2
    · subst heq
      obtain ⟨t, e, hin, hfe⟩ := hf
      cases hr : msg.role with
      | system =>
        simp only [clientRenderInput, hr, Option.some.injEq] at hin
        subst hin
        exact ⟨e, by simp [convertMessagesToContentGo, hr, hfe, Bind.bind, Except.bind]⟩
      | user =>
        simp only [clientRenderInput, hr, Option.some.injEq] at hin
        subst hin
        exact ⟨e, by simp [convertMessagesToContentGo, hr, hfe, Bind.bind, Except.bind]⟩
      | assistant =>
        simp only [clientRenderInput, hr, Option.some.injEq] at hin
        subst hin
        exact ⟨e, by simp [convertMessagesToContentGo, hr, hfe, Bind.bind, Except.bind]⟩
      | tool =>
        simp only [clientRenderInput, hr, Option.some.injEq] at hin
        subst hin
        exact ⟨e, by simp [convertMessagesToContentGo, hr, hfe, Bind.bind, Except.bind]⟩
      | other v =>
        simp [clientRenderInput, hr] at hin
    · cases hr : m.role with
      | other v =>
        obtain ⟨e, hrest⟩ := ih hmem2
        exact ⟨e, by simp [convertMessagesToContentGo, hr, hrest]⟩
      | system =>
        rcases hft : fromText ("[SYSTEM] " ++ m.content) with e0 | t0
        · exact ⟨e0, by simp [convertMessagesToContentGo, hr, hft, Bind.bind, Except.bind]⟩
        · obtain ⟨e, hrest⟩ := ih hmem2
          exact ⟨e, by simp [convertMessagesToContentGo, hr, hft, hrest, Bind.bind, Except.bind]⟩
      | user =>
        rcases hft : fromText m.content with e0 | t0
        · exact ⟨e0, by simp [convertMessagesToContentGo, hr, hft, Bind.bind, Except.bind]⟩
        · obtain ⟨e, hrest⟩ := ih hmem2
          exact ⟨e, by simp [convertMessagesToContentGo, hr, hft, hrest, Bind.bind, Except.bind]⟩
      | assistant =>
        rcases hft : fromText m.content with e0 | t0
        · exact ⟨e0, by simp [convertMessagesToContentGo, hr, hft, Bind.bind, Except.bind]⟩
        · obtain ⟨e, hrest⟩ := ih hmem2
          exact ⟨e, by simp [convertMessagesToContentGo, hr, hft, hrest, Bind.bind, Except.bind]⟩
      | tool =>
        rcases hft : fromText m.content with e0 | t0
        · exact ⟨e0, by simp [convertMessagesToContentGo, hr, hft, Bind.bind, Except.bind]⟩
        · obtain ⟨e, hrest⟩ := ih hmem2
          exact ⟨e, by simp [convertMessagesToContentGo, hr, hft, hrest, Bind.bind, Except.bind]⟩

theorem sessionGo_error (fromText : String → Except String String) (msgs : List Message)
    (msg : Message) (hmem : msg ∈ msgs) (hf : sessionPartFails fromText msg) :
    ∃ e, convertToGeminiContentGo fromText msgs = Except.error e := by
  induction msgs with
  | nil => cases hmem
  | cons m rest ih =>
    rcases List.mem_cons.mp hmem with heq | hmem2
    · subst heq
      obtain ⟨e, hfe⟩ := hf
      exact ⟨e, by simp [convertToGeminiContentGo, hfe, Bind.bind, Except.bind]⟩
    · rcases hft : fromText
          ((if m.role = MessageRole.system then "[SYSTEM] " else "") ++ m.content)
        with e0 | t0
      · exact ⟨e0, by simp [convertToGeminiContentGo, hft, Bind.bind, Except.bind]⟩
      · obtain ⟨e, hrest⟩ := ih hmem2
        exact ⟨e, by simp [convertToGeminiContentGo, hft, hrest, Bind.bind, Except.bind]⟩

/-- C10: if rendering any message of the store raises, both content adapters
catch the exception and return the empty list — the whole conversation
history is silently dropped from the model request instead of the error
propagating. -/
theorem adapter_swallows_conversion_errors (fromText : String → Except String String)
    (msgs : List Message) (msg : Message) (hmem : msg ∈ msgs) :
    (clientPartFails fromText msg → convertMessagesToContent fromText msgs = []) ∧
    (sessionPartFails fromText msg → convertToGeminiContent fromText msgs = []) := by
  constructor
  · intro hf
    obtain ⟨e, h⟩ := clientGo_error fromText msgs msg hmem hf
    simp [convertMessagesToContent, h]
  · intro hf
    obtain ⟨e, h⟩ := sessionGo_error fromText msgs msg hmem hf
    simp [convertToGeminiContent, h]

/-- A part renderer that raises on every input. -/
def failFromText : String → Except String String := fun _ => Except.error "boom"

theorem adapter_swallows_conversion_errors_witness :
    convertMessagesToContent failFromText [Message.mk MessageRole.user "q"] = [] ∧
    convertToGeminiContent failFromText [Message.mk MessageRole.user "q"] = [] :=
  ⟨(adapter_swallows_conversion_errors failFromText [Message.mk MessageRole.user "q"]
      (Message.mk MessageRole.user "q") (by simp)).1 ⟨"q", "boom", rfl, rfl⟩,
   (adapter_swallows_conversion_errors failFromText [Message.mk MessageRole.user "q"]
      (Message.mk MessageRole.user "q") (by simp)).2 ⟨"boom", rfl⟩⟩

end Text2Sql
